import Mathlib

/-!
Verification development for the EVerest TLS connection library
(`lib/staging/tls`) and the PhyVersoBSP temperature publisher
(`modules/PhyVersoBSP/temperature_main`).

The TLS library implementation itself is not part of the sources at hand
(only its test suite `tests/tls_connection_test.cpp` is), so the TLS
definitions below are modelled from the specification (spec.md §3–§8);
each such definition's doc comment says so.  The temperature definitions
are translated directly from `temperatureImpl.cpp`.
-/

namespace EverestTls

/-- Modelled from the spec (§3, result_t): the result vocabulary
`{success, want_read, want_write, timeout, closed, error}` returned by all
state-changing operations. -/
inductive result_t where
  | success
  | want_read
  | want_write
  | timeout
  | closed
  | error
deriving DecidableEq, Repr

/-- Modelled from the spec (§4.3): the identifier types carried by the
trusted-CA-keys extension: pre-agreed, certificate-SHA1-hash,
public-key-SHA1-hash, subject-name (DER Name),
certificate-SHA1-hash-and-chain. -/
inductive IdentifierType where
  | preAgreed
  | certSha1Hash
  | keySha1Hash
  | x509Name
  | certSha1HashAndChain
deriving DecidableEq, Repr

/-- Modelled from the spec (§4.3): one (identifier-type, identifier-bytes)
pair of the trusted-CA-keys extension payload. -/
structure CaIdentifier where
  idType : IdentifierType
  idBytes : List Nat
deriving DecidableEq, Repr

/-- Modelled from the spec (§3, ChainConfig): the data of a chain's trust
anchor that CA-keys matching compares against: the certificate's SHA-1
hash, the public key's SHA-1 hash and the DER-encoded subject name. -/
structure TrustAnchor where
  certHash : List Nat
  keyHash : List Nat
  subjectName : List Nat
deriving DecidableEq, Repr

/-- Modelled from the spec (§3, ChainConfig): certificate chain
configuration; the trust anchor is optional (its absence disables that
chain's participation in CA-keys matching), and the chain carries an
ordered list of OCSP response blobs. -/
structure ChainConfig where
  trustAnchor : Option TrustAnchor
  ocspResponses : List (List Nat)
deriving DecidableEq, Repr

/-- Modelled from the spec (§4.3): whether one client identifier is
satisfied by the chain at configuration index `idx`.  Pre-agreed matches
the default chain (index 0) unconditionally; the hash types compare
against the trust anchor's hashes, subject-name against the anchor's DER
name; a chain without a trust anchor matches no hash/name identifier. -/
def identifierMatches (id : CaIdentifier) (idx : Nat) (chain : ChainConfig) : Bool :=
  match id.idType with
  | .preAgreed => idx == 0
  | .certSha1Hash =>
    match chain.trustAnchor with
    | some ta => ta.certHash == id.idBytes
    | none => false
  | .keySha1Hash =>
    match chain.trustAnchor with
    | some ta => ta.keyHash == id.idBytes
    | none => false
  | .x509Name =>
    match chain.trustAnchor with
    | some ta => ta.subjectName == id.idBytes
    | none => false
  | .certSha1HashAndChain =>
    match chain.trustAnchor with
    | some ta => ta.certHash == id.idBytes
    | none => false

/-- Modelled from the spec (§4.3): scan the configured chains in
configuration order (starting at absolute index `idx`) and return the
index of the first chain satisfying the identifier. -/
def findMatchingChainFrom (id : CaIdentifier) (chains : List ChainConfig) (idx : Nat) :
    Option Nat :=
  match chains with
  | [] => none
  | c :: rest =>
    if identifierMatches id idx c then some idx else findMatchingChainFrom id rest (idx + 1)

/-- Modelled from the spec (§4.3): scan identifiers in the order the
client sent them; for each, scan chains in configuration order; the first
identifier with any matching chain wins overall.  If no identifier
matches any chain the default chain (index 0) is used. -/
def selectChain (ids : List CaIdentifier) (chains : List ChainConfig) : Nat :=
  match ids with
  | [] => 0
  | id :: rest =>
    match findMatchingChainFrom id chains 0 with
    | some k => k
    | none => selectChain rest chains

/-- Modelled from the spec (§4.3): parse the entries of the
trusted-authorities list: a sequence of (identifier-type,
identifier-bytes) pairs.  Type 0 is pre-agreed (no data), type 1 a
public-key SHA-1 hash (20 bytes), type 2 a DER subject name with its own
2-byte length field, type 3 a certificate SHA-1 hash (20 bytes); a
truncated entry or an unknown type makes the payload malformed. -/
def parseIdentifiers : List Nat → Option (List CaIdentifier)
  | [] => some []
  | 0 :: rest => (parseIdentifiers rest).map (fun ids => ⟨.preAgreed, []⟩ :: ids)
  | 1 :: rest =>
    if 20 ≤ rest.length then
      (parseIdentifiers (rest.drop 20)).map (fun ids => ⟨.keySha1Hash, rest.take 20⟩ :: ids)
    else none
  | 2 :: hi :: lo :: rest =>
    if hi * 256 + lo ≤ rest.length then
      (parseIdentifiers (rest.drop (hi * 256 + lo))).map
        (fun ids => ⟨.x509Name, rest.take (hi * 256 + lo)⟩ :: ids)
    else none
  | 3 :: rest =>
    if 20 ≤ rest.length then
      (parseIdentifiers (rest.drop 20)).map (fun ids => ⟨.certSha1Hash, rest.take 20⟩ :: ids)
    else none
  | _ => none
termination_by l => l.length
decreasing_by
  all_goals simp only [List.length_drop, List.length_cons]
  all_goals omega

/-- Modelled from the spec (§4.3): the full extension payload carries the
2-byte length of the trusted-authorities list followed by exactly that
many bytes of identifier entries; a payload that is truncated, missing
the length field, or whose length field does not match is malformed. -/
def parseExtension (payload : List Nat) : Option (List CaIdentifier) :=
  match payload with
  | hi :: lo :: rest =>
    if hi * 256 + lo = rest.length then parseIdentifiers rest else none
  | _ => none

/-- Modelled from the spec (§4.3/§7): server-side handling of the
trusted-CA-keys extension during ClientHello processing — the selected
chain index and the handshake disposition.  A missing or malformed
extension selects the default chain (index 0); otherwise the
chain-selection algorithm runs on the parsed identifiers.  The handshake
proceeds normally in every case: the extension is never handshake-fatal. -/
def handleTrustedCaKeys (payload : Option (List Nat)) (chains : List ChainConfig) :
    Nat × result_t :=
  match payload with
  | none => (0, .success)
  | some bytes =>
    match parseExtension bytes with
    | none => (0, .success)
    | some ids => (selectChain ids chains, .success)

/-- Modelled from the spec (§4.4): after chain selection, if the
ClientHello carried the v1 status-request extension the responder staples
the selected chain's first configured OCSP response (when present); a
client sending only the v2 variant produces no staple — v1 is the variant
this design honors, and v2 is ignored even when both are present. -/
def ocspStaple (statusRequest statusRequestV2 : Bool) (chain : ChainConfig) :
    Option (List Nat) :=
  if statusRequest then chain.ocspResponses.head? else none

/-- Modelled from the spec (§4.4): the engine's status callback fires
whenever the client requested certificate status via either variant. -/
def statusCallbackInvoked (statusRequest statusRequestV2 : Bool) : Bool :=
  statusRequest || statusRequestV2

/-- Modelled from the spec (§4.4): the number of Certificate-Status
messages sent is one exactly when a staple was produced. -/
def certStatusMessages (statusRequest statusRequestV2 : Bool) (chain : ChainConfig) : Nat :=
  match ocspStaple statusRequest statusRequestV2 chain with
  | some _ => 1
  | none => 0

/-- Modelled from the spec (§4.1): the connection states
`Unconnected → Handshaking → Established → ShuttingDown → Closed`. -/
inductive ConnState where
  | unconnected
  | handshaking
  | established
  | shuttingDown
  | closed
deriving DecidableEq, Repr

/-- The two ends of one connection. -/
inductive Side where
  | client
  | server
deriving DecidableEq, Repr

/-- The peer of a side. -/
def Side.other : Side → Side
  | .client => .server
  | .server => .client

/-- Modelled from the spec (§4.1/§5): the two ends of one TLS connection
together with what is in flight between them: each side's state, the
application bytes written but not yet read in each direction, and
whether each side's close notification has been sent. -/
structure Duplex where
  client : ConnState
  server : ConnState
  toServer : List Nat
  toClient : List Nat
  clientNotify : Bool
  serverNotify : Bool
deriving DecidableEq, Repr

/-- The state of the given side. -/
def Duplex.stateOf (d : Duplex) : Side → ConnState
  | .client => d.client
  | .server => d.server

/-- The bytes in flight toward the given side. -/
def Duplex.incoming (d : Duplex) : Side → List Nat
  | .client => d.toClient
  | .server => d.toServer

/-- Whether the peer of the given side has sent its close notification. -/
def Duplex.peerNotify (d : Duplex) : Side → Bool
  | .client => d.serverNotify
  | .server => d.clientNotify

/-- Replace the state of the given side. -/
def Duplex.setState (d : Duplex) : Side → ConnState → Duplex
  | .client, st => { d with client := st }
  | .server, st => { d with server := st }

/-- Replace the bytes in flight toward the given side. -/
def Duplex.setIncoming (d : Duplex) : Side → List Nat → Duplex
  | .client, buf => { d with toClient := buf }
  | .server, buf => { d with toServer := buf }

/-- Record that the given side has sent its close notification. -/
def Duplex.sendNotify (d : Duplex) : Side → Duplex
  | .client => { d with clientNotify := true }
  | .server => { d with serverNotify := true }

/-- Append bytes written by the given side to the in-flight data toward
its peer. -/
def Duplex.appendOutgoing (d : Duplex) : Side → List Nat → Duplex
  | .client, data => { d with toServer := d.toServer ++ data }
  | .server, data => { d with toClient := d.toClient ++ data }

/-- Modelled from the spec (§4.1): `shutdown()` initiates or completes an
orderly bidirectional close: from `Established` or `ShuttingDown` the
side sends its own close notification and returns `closed` as soon as it
is sent, without waiting for the peer's acknowledgment, reaching
`Closed`; once `Closed` is reached further calls return `closed` and
change nothing; in the remaining states there is no session to close
down and the call reports `error`. -/
def Duplex.shutdown (d : Duplex) (s : Side) : result_t × Duplex :=
  match d.stateOf s with
  | .established => (.closed, (d.sendNotify s).setState s .closed)
  | .shuttingDown => (.closed, (d.sendNotify s).setState s .closed)
  | .closed => (.closed, d)
  | _ => (.error, d.setState s .closed)

/-- Modelled from the spec (§4.1/§4.2, zero timeout): `read()` is valid
only in `Established`; one non-blocking attempt delivers buffered bytes
(up to the requested count) with `success`, observes the peer's arrived
close notification as `closed` (reaching `Closed`), or returns
`want_read` when nothing is available yet. -/
def Duplex.read (d : Duplex) (s : Side) (maxLen : Nat) : result_t × List Nat × Duplex :=
  match d.stateOf s with
  | .established =>
    match d.incoming s with
    | [] =>
      if d.peerNotify s then (.closed, [], d.setState s .closed)
      else (.want_read, [], d)
    | b :: bs =>
      (.success, (b :: bs).take maxLen, d.setIncoming s ((b :: bs).drop maxLen))
  | .closed => (.closed, [], d)
  | _ => (.error, [], d)

/-- Modelled from the spec (§4.1): `write()` is valid only in
`Established`; the written bytes join the in-flight data toward the peer
and the transferred count is reported. -/
def Duplex.write (d : Duplex) (s : Side) (data : List Nat) : result_t × Nat × Duplex :=
  match d.stateOf s with
  | .established => (.success, data.length, d.appendOutgoing s data)
  | .closed => (.closed, 0, d)
  | _ => (.error, 0, d)

/-- Modelled from the spec (§4.2): the TLS engine during a handshake,
abstracted to the number of underlying I/O exchanges still needed before
the handshake completes. -/
structure EngineState where
  ioNeeded : Nat
deriving DecidableEq, Repr

/-- Modelled from the spec (§4.2): one non-blocking engine attempt —
`success` when nothing more is needed, otherwise one pending I/O
exchange is consumed and the engine signals that it wants more
underlying I/O. -/
def engineAttempt (e : EngineState) : result_t × EngineState :=
  if e.ioNeeded = 0 then (.success, e)
  else (.want_read, ⟨e.ioNeeded - 1⟩)

/-- Record of one `connect`/`accept`/`read`/`write` call: its result, the
engine afterwards, how many engine attempts the call performed and how
long it waited internally. -/
structure CallOutcome where
  result : result_t
  engine : EngineState
  attempts : Nat
  waitedMs : Nat
deriving DecidableEq, Repr

/-- Modelled from the spec (§4.2): a call made with a timeout of zero
performs exactly one non-blocking attempt, waits for nothing, and
returns the engine's want-more-I/O signal immediately when it cannot
proceed. -/
def zeroTimeoutCall (e : EngineState) : CallOutcome :=
  let a := engineAttempt e
  ⟨a.1, a.2, 1, 0⟩

/-- Modelled from the spec (§8): the caller's poll-then-retry loop —
repeat zero-timeout calls until `success`, with the given retry fuel. -/
def retryLoop (e : EngineState) : Nat → result_t
  | 0 => (zeroTimeoutCall e).result
  | fuel + 1 =>
    let c := zeroTimeoutCall e
    if c.result = .success then .success else retryLoop c.engine fuel

/-- Modelled from the spec (§4.2/§8): one positively-timed `write()`
toward a peer that never drains its receive buffer: the transport
absorbs at most its remaining capacity; when everything requested fits
the call succeeds, otherwise the bounded wait elapses and the call
reports `timeout` together with the bytes actually transferred — partial
counts are always reported. -/
def stuckWrite (cap buffered req : Nat) : result_t × Nat × Nat :=
  let n := min req (cap - buffered)
  if n = req then (.success, n, buffered + n)
  else (.timeout, n, buffered + n)

/-- Modelled from the spec (§8): a sequence of `write()` calls toward the
stuck peer, returning each call's (result, transferred-count) record and
the bytes finally held in the transport buffer. -/
def stuckWriteRun (cap : Nat) (buffered : Nat) : List Nat → List (result_t × Nat) × Nat
  | [] => ([], buffered)
  | req :: reqs =>
    let step := stuckWrite cap buffered req
    let rest := stuckWriteRun cap step.2.2 reqs
    ((step.1, step.2.1) :: rest.1, rest.2)

end EverestTls

namespace TemperatureMain

/-- Reference voltage of the ADC, from `temperatureImpl.cpp`
(`REFERENCE_VOLTAGE = 3.3`). -/
def REFERENCE_VOLTAGE : ℚ := 33 / 10

/-- Number of ADC bits, from `temperatureImpl.cpp` (`NUMBER_OF_BITS = 12`). -/
def NUMBER_OF_BITS : Nat := 12

/-- Slope of the voltage-to-temperature conversion, from
`temperatureImpl.cpp` (`VOLTAGE_TO_TEMPERATURE_SLOPE = -31.0`). -/
def VOLTAGE_TO_TEMPERATURE_SLOPE : ℚ := -31

/-- Offset of the voltage-to-temperature conversion, from
`temperatureImpl.cpp` (`VOLTAGE_TO_TEMPERATURE_OFFSET = 92.8`). -/
def VOLTAGE_TO_TEMPERATURE_OFFSET : ℚ := 464 / 5

/-- Translation of `get_temp` from `temperatureImpl.cpp`, with the float
arithmetic embedded as exact rational arithmetic:
`voltage = raw / ((1 << 12) - 1) * 3.3; temp = -31.0 * voltage + 92.8`. -/
def get_temp (raw : ℤ) : ℚ :=
  let voltage : ℚ := ((raw : ℚ) / ((2 ^ NUMBER_OF_BITS : ℚ) - 1)) * REFERENCE_VOLTAGE
  VOLTAGE_TO_TEMPERATURE_SLOPE * voltage + VOLTAGE_TO_TEMPERATURE_OFFSET

/-- The temperature signal received by the publisher: a raw-reading array
(modelled as a function from index to raw value) and the count of valid
entries, mirroring the `Temperature` struct consumed in
`temperatureImpl::init`. -/
structure Temperature where
  temp : Nat → ℤ
  temp_count : Nat

/-- Translation of the signal handler installed by `temperatureImpl::init`:
for `i = 0 .. temp_count - 1` it pushes `get_temp(temperature.temp[i])`
into the published vector, in order. -/
def publishedTemperatures (t : Temperature) : List ℚ :=
  (List.range t.temp_count).map (fun i => get_temp (t.temp i))

end TemperatureMain

namespace EverestTls

theorem findMatchingChainFrom_eq_some (id : CaIdentifier) (chains : List ChainConfig)
    (i k : Nat) (hk : k < chains.length)
    (hmatch : identifierMatches id (i + k) (chains.get ⟨k, hk⟩) = true)
    (hprev : ∀ k' (h : k' < k),
      identifierMatches id (i + k') (chains.get ⟨k', Nat.lt_trans h hk⟩) = false) :
    findMatchingChainFrom id chains i = some (i + k) := by
  induction chains generalizing i k with
  | nil => exact absurd hk (Nat.not_lt_zero k)
  | cons c rest ih =>
    cases k with
    | zero =>
      have hm : identifierMatches id i c = true := by simpa using hmatch
      simp [findMatchingChainFrom, hm]
    | succ k =>
      have h0 : identifierMatches id i c = false := by
        simpa using hprev 0 (Nat.succ_pos k)
      have hk2 : k < rest.length := Nat.lt_of_succ_lt_succ hk
      have hm2 : identifierMatches id ((i + 1) + k) (rest.get ⟨k, hk2⟩) = true := by
        have : i + (k + 1) = (i + 1) + k := by omega
        simpa [List.get, this] using hmatch
      have hp2 : ∀ k' (h : k' < k),
          identifierMatches id ((i + 1) + k') (rest.get ⟨k', Nat.lt_trans h hk2⟩) = false := by
        intro k' h
        have : i + (k' + 1) = (i + 1) + k' := by omega
        simpa [List.get, this] using hprev (k' + 1) (Nat.succ_lt_succ h)
      have := ih (i + 1) k hk2 hm2 hp2
      simp [findMatchingChainFrom, h0, this]
      omega

theorem findMatchingChainFrom_eq_none (id : CaIdentifier) (chains : List ChainConfig)
    (i : Nat)
    (hall : ∀ k (h : k < chains.length),
      identifierMatches id (i + k) (chains.get ⟨k, h⟩) = false) :
    findMatchingChainFrom id chains i = none := by
  induction chains generalizing i with
  | nil => rfl
  | cons c rest ih =>
    have h0 : identifierMatches id i c = false := by
      simpa using hall 0 (Nat.succ_pos _)
    have htail : ∀ k (h : k < rest.length),
        identifierMatches id ((i + 1) + k) (rest.get ⟨k, h⟩) = false := by
      intro k h
      have : i + (k + 1) = (i + 1) + k := by omega
      simpa [List.get, this] using hall (k + 1) (Nat.succ_lt_succ h)
    simp [findMatchingChainFrom, h0, ih (i + 1) htail]

theorem selectChain_eq_zero_of_no_match (ids : List CaIdentifier) (chains : List ChainConfig)
    (h : ∀ j (hj : j < ids.length) k (hk : k < chains.length),
      identifierMatches (ids.get ⟨j, hj⟩) k (chains.get ⟨k, hk⟩) = false) :
    selectChain ids chains = 0 := by
  induction ids with
  | nil => rfl
  | cons id rest ih =>
    have hnone : findMatchingChainFrom id chains 0 = none := by
      apply findMatchingChainFrom_eq_none
      intro k hk
      simpa using h 0 (Nat.succ_pos _) k hk
    have htail : ∀ j (hj : j < rest.length) k (hk : k < chains.length),
        identifierMatches (rest.get ⟨j, hj⟩) k (chains.get ⟨k, hk⟩) = false := by
      intro j hj k hk
      simpa [List.get] using h (j + 1) (Nat.succ_lt_succ hj) k hk
    simp [selectChain, hnone, ih htail]

/-- C1: with a configured chain list, when the client's trusted-CA-keys
identifiers are scanned in client-sent order and chains in configuration
order, the first identifier with any matching chain wins: if identifier
`j` matches chain `k`, no earlier identifier matches any chain, and no
earlier chain matches identifier `j`, then the server selects (and hence
presents the certificate of) chain `k` — in particular chain `k` rather
than chain 0 whenever `k ≠ 0`. -/
theorem selectChain_first_identifier_first_chain_wins
    (ids : List CaIdentifier) (chains : List ChainConfig)
    (j k : Nat) (hj : j < ids.length) (hk : k < chains.length)
    (hmatch : identifierMatches (ids.get ⟨j, hj⟩) k (chains.get ⟨k, hk⟩) = true)
    (hearlier : ∀ j' (hj' : j' < j) k' (hk' : k' < chains.length),
      identifierMatches (ids.get ⟨j', Nat.lt_trans hj' hj⟩) k' (chains.get ⟨k', hk'⟩) = false)
    (hfirst : ∀ k' (hk' : k' < k),
      identifierMatches (ids.get ⟨j, hj⟩) k' (chains.get ⟨k', Nat.lt_trans hk' hk⟩) = false) :
    selectChain ids chains = k := by
  induction ids generalizing j with
  | nil => exact absurd hj (Nat.not_lt_zero j)
  | cons id rest ih =>
    cases j with
    | zero =>
      have hsome : findMatchingChainFrom id chains 0 = some (0 + k) := by
        apply findMatchingChainFrom_eq_some id chains 0 k hk
        · simpa [List.get] using hmatch
        · intro k' h
          simpa [List.get] using hfirst k' h
      simp only [Nat.zero_add] at hsome
      simp [selectChain, hsome]
    | succ j =>
      have hnone : findMatchingChainFrom id chains 0 = none := by
        apply findMatchingChainFrom_eq_none
        intro k' h
        simpa [List.get] using hearlier 0 (Nat.succ_pos _) k' h
      have hj2 : j < rest.length := Nat.lt_of_succ_lt_succ hj
      have hm2 : identifierMatches (rest.get ⟨j, hj2⟩) k (chains.get ⟨k, hk⟩) = true := by
        simpa [List.get] using hmatch
      have he2 : ∀ j' (hj' : j' < j) k' (hk' : k' < chains.length),
          identifierMatches (rest.get ⟨j', Nat.lt_trans hj' hj2⟩) k'
            (chains.get ⟨k', hk'⟩) = false := by
        intro j' hj' k' hk'
        simpa [List.get] using hearlier (j' + 1) (Nat.succ_lt_succ hj') k' hk'
      have hf2 : ∀ k' (hk' : k' < k),
          identifierMatches (rest.get ⟨j, hj2⟩) k'
            (chains.get ⟨k', Nat.lt_trans hk' hk⟩) = false := by
        intro k' hk'
        simpa [List.get] using hfirst k' hk'
      simp [selectChain, hnone, ih j hj2 hm2 he2 hf2]

/-- Witness for C1: two chains, one client identifier whose certificate
hash matches chain 1's trust anchor; the selector returns chain 1. -/
theorem selectChain_first_identifier_first_chain_wins_witness :
    selectChain [⟨.certSha1Hash, [7]⟩]
      [⟨some ⟨[3], [4], [5]⟩, []⟩, ⟨some ⟨[7], [8], [9]⟩, []⟩] = 1 := by
  apply selectChain_first_identifier_first_chain_wins
    [⟨.certSha1Hash, [7]⟩]
    [⟨some ⟨[3], [4], [5]⟩, []⟩, ⟨some ⟨[7], [8], [9]⟩, []⟩]
    0 1 (by decide) (by decide)
  · decide
  · intro j' hj' k' hk'
    exact absurd hj' (Nat.not_lt_zero j')
  · intro k' hk'
    have hz : k' = 0 := by omega
    subst hz
    exact (by decide :
      identifierMatches ⟨.certSha1Hash, [7]⟩ 0 ⟨some ⟨[3], [4], [5]⟩, []⟩ = false)

/-- C2: a trusted-CA-keys payload that is malformed (unparseable) or
whose identifiers match no configured chain makes the server fall back to
the default chain (index 0), and the handshake still completes normally
rather than raising an error. -/
theorem handleTrustedCaKeys_fallback (bytes : List Nat) (chains : List ChainConfig)
    (h : parseExtension bytes = none ∨
      ∃ ids, parseExtension bytes = some ids ∧
        ∀ j (hj : j < ids.length) k (hk : k < chains.length),
          identifierMatches (ids.get ⟨j, hj⟩) k (chains.get ⟨k, hk⟩) = false) :
    handleTrustedCaKeys (some bytes) chains = (0, result_t.success) := by
  rcases h with h | ⟨ids, hsome, hno⟩
  · simp [handleTrustedCaKeys, h]
  · simp [handleTrustedCaKeys, hsome, selectChain_eq_zero_of_no_match ids chains hno]

/-- The malformed trusted-CA-keys payload observed in a WireShark log and
replayed by the repository's `TCKeysInvalid` test: two key-hash entries
with the size of the trusted-authorities list missing. -/
def badTrustedCaKeysPayload : List Nat :=
  [0x01, 0x4c, 0xd7, 0x29, 0x0b, 0xf5, 0x92, 0xd2, 0xc1, 0xba, 0x90, 0xf5, 0x6e, 0x08,
   0x94, 0x6d, 0x4c, 0x8e, 0x99, 0xdc, 0x38, 0x01, 0x00, 0xfa, 0xe3, 0x90, 0x07, 0x95,
   0xc8, 0x88, 0xa4, 0xd4, 0xd7, 0xbd, 0x9f, 0xdf, 0xfa, 0x60, 0x41, 0x8a, 0xc1, 0x9f]

/-- Witness for C2: the test's malformed payload (missing its length
prefix) is rejected by the parser and the server uses chain 0 with the
handshake succeeding. -/
theorem handleTrustedCaKeys_fallback_witness :
    handleTrustedCaKeys (some badTrustedCaKeysPayload)
      [⟨some ⟨[3], [4], [5]⟩, []⟩] = (0, result_t.success) := by
  apply handleTrustedCaKeys_fallback
  exact Or.inl (by decide)

/-- C3: when the ClientHello carries both the v1 and the v2
status-request extensions, the responder answers v1 — it staples the
selected chain's first OCSP response, exactly as in the v1-only case —
and v2 is ignored; no flag combination ever produces more than one
Certificate-Status message. -/
theorem ocsp_both_present_v1_answered (chain : ChainConfig) :
    ocspStaple true true chain = chain.ocspResponses.head? ∧
    ocspStaple true true chain = ocspStaple true false chain ∧
    (∀ v1 v2 : Bool, certStatusMessages v1 v2 chain ≤ 1) := by
  refine ⟨rfl, rfl, ?_⟩
  intro v1 v2
  unfold certStatusMessages
  cases h : ocspStaple v1 v2 chain <;> simp

/-- C4: when the ClientHello carries only the v2 status-request
extension, the engine's status callback is still invoked, yet no OCSP
staple is produced and no Certificate-Status message is sent. -/
theorem ocsp_v2_only_no_staple (chain : ChainConfig) :
    statusCallbackInvoked false true = true ∧
    ocspStaple false true chain = none ∧
    certStatusMessages false true chain = 0 :=
  ⟨rfl, rfl, rfl⟩

/-- C5: on a connection with both sides `Established` and nothing
buffered toward the peer, the initiating side's first `shutdown()`
returns `closed` as soon as its own close notification is sent (without
waiting for the peer's acknowledgment) and reaches `Closed`; the peer's
next `read()` observes `closed` once that notification has arrived, and
the peer's next `shutdown()` likewise reports `closed`. -/
theorem shutdown_orderly_close (d : Duplex) (s : Side)
    (hs : d.stateOf s = .established)
    (hp : d.stateOf s.other = .established)
    (hbuf : d.incoming s.other = []) :
    (d.shutdown s).1 = .closed ∧
    (d.shutdown s).2.stateOf s = .closed ∧
    ((d.shutdown s).2.read s.other 1).1 = .closed ∧
    ((d.shutdown s).2.shutdown s.other).1 = .closed := by
  cases s <;>
    simp_all [Duplex.shutdown, Duplex.read, Duplex.stateOf, Duplex.incoming,
      Duplex.peerNotify, Duplex.sendNotify, Duplex.setState, Side.other]

/-- Witness for C5: a freshly established connection; the client's
shutdown returns `closed` and the server then observes `closed`. -/
theorem shutdown_orderly_close_witness :
    ((⟨.established, .established, [], [], false, false⟩ : Duplex).shutdown .client).1 =
        .closed ∧
    ((⟨.established, .established, [], [], false, false⟩ : Duplex).shutdown
        .client).2.stateOf .client = .closed ∧
    (((⟨.established, .established, [], [], false, false⟩ : Duplex).shutdown
        .client).2.read (Side.client).other 1).1 = .closed ∧
    (((⟨.established, .established, [], [], false, false⟩ : Duplex).shutdown
        .client).2.shutdown (Side.client).other).1 = .closed :=
  shutdown_orderly_close ⟨.established, .established, [], [], false, false⟩ .client
    rfl rfl rfl

/-- C6: once a side of the connection has reached `Closed`, `shutdown()`
is idempotent — every further call returns `closed` and leaves the whole
connection unchanged, hence all subsequent calls return the same result. -/
theorem shutdown_idempotent_once_closed (d : Duplex) (s : Side)
    (h : d.stateOf s = .closed) :
    d.shutdown s = (.closed, d) := by
  cases s <;> simp_all [Duplex.shutdown, Duplex.stateOf]

/-- Witness for C6: shutting down an already-closed client side returns
`closed` and changes nothing. -/
theorem shutdown_idempotent_once_closed_witness :
    (⟨.closed, .established, [], [], true, false⟩ : Duplex).shutdown .client =
      (.closed, ⟨.closed, .established, [], [], true, false⟩) :=
  shutdown_idempotent_once_closed ⟨.closed, .established, [], [], true, false⟩ .client rfl

/-- C7: a call made with a timeout of zero performs exactly one
non-blocking engine attempt and waits for nothing; it returns the
want-more-I/O signal immediately whenever the engine cannot proceed and
`success` when it can, and the caller's poll-then-retry loop converges
to `success` given at least as many retries as I/O exchanges remain. -/
theorem zero_timeout_one_attempt_and_converges (e : EngineState) (fuel : Nat)
    (hfuel : e.ioNeeded ≤ fuel) :
    (zeroTimeoutCall e).attempts = 1 ∧
    (zeroTimeoutCall e).waitedMs = 0 ∧
    (e.ioNeeded ≠ 0 → (zeroTimeoutCall e).result = .want_read) ∧
    (e.ioNeeded = 0 → (zeroTimeoutCall e).result = .success) ∧
    retryLoop e fuel = .success := by
  refine ⟨rfl, rfl, ?_, ?_, ?_⟩
  · intro h
    simp [zeroTimeoutCall, engineAttempt, h]
  · intro h
    simp [zeroTimeoutCall, engineAttempt, h]
  · induction fuel generalizing e with
    | zero =>
      have h0 : e.ioNeeded = 0 := Nat.le_zero.mp hfuel
      simp [retryLoop, zeroTimeoutCall, engineAttempt, h0]
    | succ fuel ih =>
      by_cases h0 : e.ioNeeded = 0
      · simp [retryLoop, zeroTimeoutCall, engineAttempt, h0]
      · have hstep : e.ioNeeded - 1 ≤ fuel := by omega
        simpa [retryLoop, zeroTimeoutCall, engineAttempt, h0] using
          ih ⟨e.ioNeeded - 1⟩ hstep

/-- Witness for C7: an engine needing three more I/O exchanges — the
zero-timeout call makes exactly one attempt and reports `want_read`, and
three retries converge to `success`. -/
theorem zero_timeout_one_attempt_and_converges_witness :
    (zeroTimeoutCall ⟨3⟩).attempts = 1 ∧
    (zeroTimeoutCall ⟨3⟩).waitedMs = 0 ∧
    ((3 : Nat) ≠ 0 → (zeroTimeoutCall ⟨3⟩).result = .want_read) ∧
    ((3 : Nat) = 0 → (zeroTimeoutCall ⟨3⟩).result = .success) ∧
    retryLoop ⟨3⟩ 3 = .success :=
  zero_timeout_one_attempt_and_converges ⟨3⟩ 3 (by decide)

/-- C8: on an `Established` connection with nothing already in flight
toward the peer, a single byte written by one end is transferred with
count one and the peer's read returns `success` with exactly that byte;
the statement holds for either side, so in both directions. -/
theorem single_byte_round_trip (d : Duplex) (s : Side) (x : Nat)
    (hs : d.stateOf s = .established)
    (hp : d.stateOf s.other = .established)
    (hbuf : d.incoming s.other = []) :
    (d.write s [x]).1 = .success ∧
    (d.write s [x]).2.1 = 1 ∧
    ((d.write s [x]).2.2.read s.other 1).1 = .success ∧
    ((d.write s [x]).2.2.read s.other 1).2.1 = [x] := by
  cases s <;>
    simp_all [Duplex.write, Duplex.read, Duplex.stateOf, Duplex.incoming,
      Duplex.appendOutgoing, Duplex.setIncoming, Side.other]

/-- Witness for C8: the byte 0xf3 written by the client is read back
identically by the server with count one. -/
theorem single_byte_round_trip_witness :
    (((⟨.established, .established, [], [], false, false⟩ : Duplex).write
        .client [0xf3]).1 = .success) ∧
    (((⟨.established, .established, [], [], false, false⟩ : Duplex).write
        .client [0xf3]).2.1 = 1) ∧
    ((((⟨.established, .established, [], [], false, false⟩ : Duplex).write
        .client [0xf3]).2.2.read (Side.client).other 1).1 = .success) ∧
    ((((⟨.established, .established, [], [], false, false⟩ : Duplex).write
        .client [0xf3]).2.2.read (Side.client).other 1).2.1 = [0xf3]) :=
  single_byte_round_trip ⟨.established, .established, [], [], false, false⟩ .client 0xf3
    rfl rfl rfl

theorem stuckWriteRun_eventually_timeout (reqs : List Nat) (cap : Nat) :
    ∀ buffered, buffered ≤ cap → cap < buffered + reqs.sum →
      ∃ entry ∈ (stuckWriteRun cap buffered reqs).1, entry.1 = result_t.timeout := by
  induction reqs with
  | nil =>
    intro buffered hb hover
    simp at hover
    omega
  | cons req reqs ih =>
    intro buffered hb hover
    by_cases h : min req (cap - buffered) = req
    · have hle : buffered + req ≤ cap := by omega
      have hover2 : cap < (buffered + req) + reqs.sum := by
        simp [List.sum_cons] at hover
        omega
      obtain ⟨entry, hmem, hto⟩ := ih (buffered + req) hle hover2
      refine ⟨entry, ?_, hto⟩
      simp [stuckWriteRun, stuckWrite, h]
      exact Or.inr hmem
    · refine ⟨(result_t.timeout, min req (cap - buffered)), ?_, rfl⟩
      simp [stuckWriteRun, stuckWrite, h]

theorem stuckWriteRun_conservation (reqs : List Nat) (cap : Nat) :
    ∀ buffered, (stuckWriteRun cap buffered reqs).2 =
      buffered + ((stuckWriteRun cap buffered reqs).1.map Prod.snd).sum := by
  induction reqs with
  | nil => intro buffered; simp [stuckWriteRun]
  | cons req reqs ih =>
    intro buffered
    by_cases h : min req (cap - buffered) = req <;>
      simp [stuckWriteRun, stuckWrite, h, ih] <;> omega

theorem stuckWriteRun_le_attempted (reqs : List Nat) (cap : Nat) :
    ∀ buffered, ((stuckWriteRun cap buffered reqs).1.map Prod.snd).sum ≤ reqs.sum := by
  induction reqs with
  | nil => intro buffered; simp [stuckWriteRun]
  | cons req reqs ih =>
    intro buffered
    by_cases h : min req (cap - buffered) = req <;>
      simp [stuckWriteRun, stuckWrite, h]
    · exact ih (buffered + req)
    · have hmin : min req (cap - buffered) ≤ req := Nat.min_le_left _ _
      have := ih (buffered + min req (cap - buffered))
      omega

theorem sum_take_mono (l : List Nat) (i j : Nat) (hij : i ≤ j) :
    (l.take i).sum ≤ (l.take j).sum := by
  have h1 : (l.take j).take i = l.take i := by
    rw [List.take_take, Nat.min_eq_left hij]
  calc (l.take i).sum = ((l.take j).take i).sum := by rw [h1]
    _ ≤ ((l.take j).take i).sum + ((l.take j).drop i).sum := Nat.le_add_right _ _
    _ = (l.take j).sum := List.sum_take_add_sum_drop _ _

/-- C9: writing a sequence of requests whose total exceeds what the
stuck peer's transport can absorb eventually yields `timeout`; the
cumulative transferred counts are monotonically non-decreasing across
calls, bounded by the total bytes attempted, and every transferred byte
is accounted for in the transport (none dropped or duplicated) — each
call reports its transferred count even on `timeout`. -/
theorem stuck_write_timeout_monotone_bounded (cap : Nat) (reqs : List Nat)
    (hover : cap < reqs.sum) :
    (∃ entry ∈ (stuckWriteRun cap 0 reqs).1, entry.1 = result_t.timeout) ∧
    (∀ i j, i ≤ j →
      (((stuckWriteRun cap 0 reqs).1.map Prod.snd).take i).sum ≤
        (((stuckWriteRun cap 0 reqs).1.map Prod.snd).take j).sum) ∧
    ((stuckWriteRun cap 0 reqs).1.map Prod.snd).sum ≤ reqs.sum ∧
    (stuckWriteRun cap 0 reqs).2 = ((stuckWriteRun cap 0 reqs).1.map Prod.snd).sum := by
  refine ⟨?_, ?_, ?_, ?_⟩
  · exact stuckWriteRun_eventually_timeout reqs cap 0 (Nat.zero_le _) (by simpa using hover)
  · intro i j hij
    exact sum_take_mono _ i j hij
  · exact stuckWriteRun_le_attempted reqs cap 0
  · simpa using stuckWriteRun_conservation reqs cap 0

/-- Witness for C9: capacity 2, write requests of 1 then 2 bytes — a
`timeout` occurs, cumulative counts are monotone and bounded, and the
transport holds exactly the reported bytes. -/
theorem stuck_write_timeout_monotone_bounded_witness :
    (∃ entry ∈ (stuckWriteRun 2 0 [1, 2]).1, entry.1 = result_t.timeout) ∧
    (((stuckWriteRun 2 0 [1, 2]).1.map Prod.snd).take 1).sum ≤
      (((stuckWriteRun 2 0 [1, 2]).1.map Prod.snd).take 2).sum ∧
    ((stuckWriteRun 2 0 [1, 2]).1.map Prod.snd).sum ≤ ([1, 2] : List Nat).sum ∧
    (stuckWriteRun 2 0 [1, 2]).2 = ((stuckWriteRun 2 0 [1, 2]).1.map Prod.snd).sum := by
  have h := stuck_write_timeout_monotone_bounded 2 [1, 2] (by decide)
  exact ⟨h.1, h.2.1 1 2 (by decide), h.2.2.1, h.2.2.2⟩

end EverestTls

namespace TemperatureMain

theorem get_temp_eq (raw : ℤ) :
    get_temp raw = 464 / 5 - 31 * ((raw : ℚ) / 4095 * (33 / 10)) := by
  simp only [get_temp, REFERENCE_VOLTAGE, NUMBER_OF_BITS, VOLTAGE_TO_TEMPERATURE_SLOPE,
    VOLTAGE_TO_TEMPERATURE_OFFSET]
  norm_num
  ring

theorem get_temp_strictAnti (r₁ r₂ : ℤ) (h : r₁ < r₂) : get_temp r₂ < get_temp r₁ := by
  have hc : (r₁ : ℚ) < (r₂ : ℚ) := by exact_mod_cast h
  rw [get_temp_eq, get_temp_eq]
  linarith

/-- C10: for every temperature signal, the published vector has exactly
`temp_count` entries in input order, entry `i` equals
`92.8 - 31.0 * (temp[i] / 4095 * 3.3)`, and the conversion is a strictly
decreasing function of the raw ADC value. -/
theorem published_temperatures_affine (t : Temperature) :
    (publishedTemperatures t).length = t.temp_count ∧
    (∀ i, i < t.temp_count →
      (publishedTemperatures t)[i]? =
        some (464 / 5 - 31 * ((t.temp i : ℚ) / 4095 * (33 / 10)))) ∧
    (∀ r₁ r₂ : ℤ, r₁ < r₂ → get_temp r₂ < get_temp r₁) := by
  refine ⟨by simp [publishedTemperatures], ?_, fun r₁ r₂ h => get_temp_strictAnti r₁ r₂ h⟩
  intro i hi
  simp [publishedTemperatures, List.getElem?_map, List.getElem?_range, hi, get_temp_eq]

/-- Witness for C10: a signal with one mid-scale reading (2047) publishes
one entry with the affine value, and the conversion decreases from raw 0
to raw 4095. -/
theorem published_temperatures_affine_witness :
    (publishedTemperatures ⟨fun _ => 2047, 1⟩).length = 1 ∧
    (publishedTemperatures ⟨fun _ => 2047, 1⟩)[0]? =
      some (464 / 5 - 31 * ((2047 : ℚ) / 4095 * (33 / 10))) ∧
    get_temp 4095 < get_temp 0 := by
  have h := published_temperatures_affine ⟨fun _ => 2047, 1⟩
  exact ⟨h.1, h.2.1 0 (by decide), h.2.2 0 4095 (by decide)⟩

end TemperatureMain
